import Mathlib

/-!
Verification of the concurrent file-checksum engine (`main` package:
`checksumWorker`, `walkWith`, `main`) against its natural-language
specification.  The Go source is shallowly embedded: the filesystem is a
tree of typed nodes, `filepath.Walk` is embedded following the Go standard
library's control flow specialised to the program's callback `walkWith`,
per-file hashing is `checksumWorker` over a read oracle, and the
goroutine-per-file execution of the program is an explicit labelled
transition system over schedules.
-/

set_option maxRecDepth 4000

/-- Kind of a directory entry as reported by `os.FileInfo` (`lstat`). -/
inductive FKind where
  | regular
  | directory
  | symlink
  | device
  | socket
  | fifo
deriving DecidableEq

/-- The slice of `os.FileInfo` the program consults: only `IsDir()`. -/
structure FInfo where
  kind : FKind
deriving DecidableEq

/-- Go's `info.IsDir()`. -/
def FInfo.isDir (i : FInfo) : Bool := i.kind == FKind.directory

/-- What one invocation of the walk callback `walkWith` does: `crash` is the
nil-pointer dereference of calling `info.IsDir()` on a nil interface value,
`skip` is `return nil` on a directory, `spawn` is `go checksumWorker(path)`
followed by `return nil`. -/
inductive WalkStep where
  | crash
  | skip
  | spawn (path : String)
deriving DecidableEq

/-- Embedding of the source's `walkWith(path, info, err)`.  The `err`
argument is never read; `info.IsDir()` is evaluated unconditionally, so a
nil `info` (modelled as `none`) dereferences nil. -/
def walkWith (path : String) (info : Option FInfo) (err : Option String) : WalkStep :=
  match info, err with
  | none, _ => WalkStep.crash
  | some i, _ => if i.isDir then WalkStep.skip else WalkStep.spawn path

/-- Observable record of one run of `filepath.Walk(root, walkWith)`: the
callback invocations made (path, info, error argument), the hashing tasks
spawned via `go checksumWorker`, and whether the callback panicked. -/
structure WalkOut where
  calls : List (String × Option FInfo × Option String)
  tasks : List String
  panicked : Bool
deriving DecidableEq

def emptyOut : WalkOut := ⟨[], [], false⟩

/-- Sequencing of walk effects: a panic unwinds, so nothing after it runs. -/
def seqOut (a b : WalkOut) : WalkOut :=
  if a.panicked then a
  else ⟨a.calls ++ b.calls, a.tasks ++ b.tasks, b.panicked⟩

/-- One callback invocation, recorded together with its effect. -/
def callOut (path : String) (info : Option FInfo) (e : Option String) : WalkOut :=
  match walkWith path info e with
  | WalkStep.crash => ⟨[(path, info, e)], [], true⟩
  | WalkStep.skip => ⟨[(path, info, e)], [], false⟩
  | WalkStep.spawn p => ⟨[(path, info, e)], [p], false⟩

/-- Filesystem node.  `file`, `link` and `special` are leaves whose kind
`lstat` reports; `dir` carries whether listing it succeeds; `statErr` is an
entry on which `lstat` itself fails with the given message (Go's `Walk`
then invokes the callback with a nil `FileInfo`). -/
inductive FsNode where
  | file
  | dir (listable : Bool) (children : List (String × FsNode))
  | link
  | special (k : FKind)
  | statErr (msg : String)

/-- Result of `lstat` on a node. -/
def lstatOf : FsNode → Except String FInfo
  | FsNode.file => Except.ok ⟨FKind.regular⟩
  | FsNode.dir _ _ => Except.ok ⟨FKind.directory⟩
  | FsNode.link => Except.ok ⟨FKind.symlink⟩
  | FsNode.special k => Except.ok ⟨k⟩
  | FsNode.statErr m => Except.error m

/-- `filepath.Join` as used by the walk. -/
def pjoin (p name : String) : String := p ++ "/" ++ name

mutual

/-- Embedding of Go's `filepath.walk` preceded by the caller's `lstat`,
specialised to the callback `walkWith` (which only ever returns nil or
panics): an `lstat` failure invokes the callback with nil info; a
non-directory gets one callback invocation; a directory gets its own
invocation (with the readdir error, if any, as the error argument) and, if
listable, a recursive walk of its children in order. -/
def walkN : String → FsNode → WalkOut
  | path, FsNode.statErr m => callOut path none (some m)
  | path, FsNode.file => callOut path (some ⟨FKind.regular⟩) none
  | path, FsNode.link => callOut path (some ⟨FKind.symlink⟩) none
  | path, FsNode.special k => callOut path (some ⟨k⟩) none
  | path, FsNode.dir false _ =>
      callOut path (some ⟨FKind.directory⟩) (some "permission denied")
  | path, FsNode.dir true children =>
      seqOut (callOut path (some ⟨FKind.directory⟩) none) (walkChildren path children)

/-- Walk the named children of a directory in order. -/
def walkChildren : String → List (String × FsNode) → WalkOut
  | _, [] => emptyOut
  | path, (name, child) :: rest =>
      seqOut (walkN (pjoin path name) child) (walkChildren path rest)

end

/-- Embedding of `filepath.Walk(root, walkWith)`. -/
def goWalk (root : String) (tree : FsNode) : WalkOut := walkN root tree

example : (goWalk "/r" (FsNode.dir true [("a.txt", FsNode.file), ("b.txt", FsNode.file)])).tasks
    = ["/r/a.txt", "/r/b.txt"] := by decide

example : (goWalk "/r" (FsNode.statErr "no such file")).panicked = true := by decide

/-- Lowercase hexadecimal digit for a value below 16. -/
def hexDigitChar (n : Nat) : Char :=
  if n < 10 then Char.ofNat (48 + n) else Char.ofNat (97 + (n - 10))

/-- Two lowercase hex digits per byte, over a whole byte sequence. -/
def specDigestChars : List Nat → List Char
  | [] => []
  | b :: rest => hexDigitChar (b / 16 % 16) :: hexDigitChar (b % 16) :: specDigestChars rest

/-- Modelled from the spec: the digest functions `FileCrc32`, `FileMd5Sum`
and `FileSha256` referenced by `checksumWorker` are not part of the sources
at hand; per spec §4.1 a digest function is deterministic in the file's
byte content and returns a lowercase hexadecimal string.  Algorithm
internals are external collaborators, so only those guaranteed properties
are modelled: the digest of a byte sequence is its lowercase-hex rendering,
a function of the content alone for each fixed algorithm. -/
def specDigest (_alg : String) (content : List Nat) : String :=
  String.mk (specDigestChars content)

/-- Read a file through the run's read oracle and digest it; an open/read
failure is returned as the error (Go's `(string, error)` pair). -/
def fileDigest (alg : String) (readFile : String → Except String (List Nat))
    (p : String) : Except String String :=
  match readFile p with
  | Except.error e => Except.error e
  | Except.ok content => Except.ok (specDigest alg content)

/-- Modelled from the spec: `FileCrc32` (not under the sources at hand)
streams a file and returns its crc digest as a lowercase hex string. -/
def FileCrc32 (readFile : String → Except String (List Nat)) : String → Except String String :=
  fileDigest "crc" readFile

/-- Modelled from the spec: `FileMd5Sum` (not under the sources at hand)
streams a file and returns its md5 digest as a lowercase hex string. -/
def FileMd5Sum (readFile : String → Except String (List Nat)) : String → Except String String :=
  fileDigest "md5" readFile

/-- Modelled from the spec: `FileSha256` (not under the sources at hand)
streams a file and returns its sha256 digest as a lowercase hex string. -/
def FileSha256 (readFile : String → Except String (List Nat)) : String → Except String String :=
  fileDigest "sha256" readFile

/-- The `switch *sign` of `checksumWorker`: which digest function the
identifier selects, if any (`none` is the `default:` branch). -/
def resolveAlg : String → Option String
  | "crc" => some "crc"
  | "md5" => some "md5"
  | "sha256" => some "sha256"
  | _ => none

/-- Result of one `checksumWorker(filePath)` call: `ok` prints the success
line and returns nil, `readFail` prints `Error: <msg>` and returns the
error, `badAlg` is the `default:` branch — it prints nothing and returns
the `Algorithm not supported.` error. -/
inductive Outcome where
  | ok (path digest : String)
  | readFail (path msg : String)
  | badAlg (path : String)
deriving DecidableEq

/-- Path of the file the worker invocation was spawned for. -/
def Outcome.path : Outcome → String
  | Outcome.ok p _ => p
  | Outcome.readFail p _ => p
  | Outcome.badAlg p => p

/-- Embedding of `checksumWorker`: resolve the global `sign` flag to a
digest function (one switch evaluation per call, i.e. per file), run it,
and classify the result. -/
def checksumWorker (sign : String) (readFile : String → Except String (List Nat))
    (filePath : String) : Outcome :=
  match resolveAlg sign with
  | none => Outcome.badAlg filePath
  | some alg =>
      match fileDigest alg readFile filePath with
      | Except.error e => Outcome.readFail filePath e
      | Except.ok cs => Outcome.ok filePath cs

/-- Lines `checksumWorker` prints for a given outcome: success is
`fmt.Printf("%s :: %s\n", filePath, cs)`, a read failure is
`fmt.Printf("Error: %v", err)` (no path, no newline), the unsupported
algorithm branch returns before printing anything. -/
def workerPrints : Outcome → List String
  | Outcome.ok p d => [p ++ " :: " ++ d ++ "\n"]
  | Outcome.readFail _ m => ["Error: " ++ m]
  | Outcome.badAlg _ => []

/-- Sanity: the `case "crc"` branch applies `FileCrc32`. -/
theorem checksumWorker_crc (R : String → Except String (List Nat)) (p : String) :
    checksumWorker "crc" R p =
      (match FileCrc32 R p with
       | Except.error e => Outcome.readFail p e
       | Except.ok cs => Outcome.ok p cs) := rfl

/-- Sanity: the `case "md5"` branch applies `FileMd5Sum`. -/
theorem checksumWorker_md5 (R : String → Except String (List Nat)) (p : String) :
    checksumWorker "md5" R p =
      (match FileMd5Sum R p with
       | Except.error e => Outcome.readFail p e
       | Except.ok cs => Outcome.ok p cs) := rfl

/-- Sanity: the `case "sha256"` branch applies `FileSha256`. -/
theorem checksumWorker_sha256 (R : String → Except String (List Nat)) (p : String) :
    checksumWorker "sha256" R p =
      (match FileSha256 R p with
       | Except.error e => Outcome.readFail p e
       | Except.ok cs => Outcome.ok p cs) := rfl

/-- Observable record of one invocation of `main` (after `flag.Parse`):
the walk it performs, the process exit status, and the results the spawned
workers compute when the scheduler lets each of them run to completion.
`main` never inspects `sign` itself — the flag only reaches the spawned
`checksumWorker` calls — and it returns right after `filepath.Walk`
returns, so a normal return exits with status 0; an uncaught panic inside
the walk callback exits the process with status 2. -/
structure RunOut where
  walkOut : WalkOut
  exitCode : Nat
  workerResults : List Outcome
deriving DecidableEq

/-- Embedding of `main`: parse flags, walk, return.  There is no
algorithm-identifier check before the walk; the only non-zero exit status
arises from the nil-info panic inside `walkWith`. -/
def mainRun (sign root : String) (readFile : String → Except String (List Nat))
    (tree : FsNode) : RunOut :=
  let w := goWalk root tree
  ⟨w, if w.panicked then 2 else 0, w.tasks.map (checksumWorker sign readFile)⟩

/-- State of the program's goroutines mid-run: `toSpawn` are the tasks the
rest of the synchronous walk in `main` will spawn, in walk order;
`spawned` are goroutines created by `go checksumWorker(path)` that have
not begun executing; `running` are digest computations executing at this
instant; `emitted` are outcomes of completed workers; `exited` means
`main` returned and the process (with any live goroutines) is gone. -/
structure PState where
  toSpawn : List String
  spawned : List String
  running : List String
  emitted : List Outcome
  exited : Bool
deriving DecidableEq

/-- Scheduler actions.  `visit` advances `main`'s walk past its next spawn
point; `start f` lets a spawned goroutine begin its digest computation;
`finish f` lets a running computation complete and emit its outcome;
`exitMain` is `main` returning once the walk is over — nothing in the code
joins the goroutines, so it needs no other precondition and kills whatever
is still spawned or running. -/
inductive Act where
  | visit
  | start (f : String)
  | finish (f : String)
  | exitMain

/-- One scheduler step.  After the process has exited nothing moves. -/
def step (sign : String) (readFile : String → Except String (List Nat))
    (s : PState) : Act → PState
  | Act.visit =>
      if s.exited then s else
      match s.toSpawn with
      | [] => s
      | f :: rest => ⟨rest, s.spawned ++ [f], s.running, s.emitted, s.exited⟩
  | Act.start f =>
      if s.exited then s else
      if f ∈ s.spawned then
        ⟨s.toSpawn, s.spawned.erase f, s.running ++ [f], s.emitted, s.exited⟩
      else s
  | Act.finish f =>
      if s.exited then s else
      if f ∈ s.running then
        ⟨s.toSpawn, s.spawned, s.running.erase f,
          s.emitted ++ [checksumWorker sign readFile f], s.exited⟩
      else s
  | Act.exitMain =>
      if s.toSpawn = [] then ⟨s.toSpawn, s.spawned, s.running, s.emitted, true⟩ else s

/-- Run a whole schedule. -/
def runSched (sign : String) (readFile : String → Except String (List Nat))
    (s : PState) : List Act → PState
  | [] => s
  | a :: rest => runSched sign readFile (step sign readFile s a) rest

/-- Initial state of a run over a tree whose walk completes without a
panic: the walk will spawn exactly its task list, in order. -/
def initState (root : String) (tree : FsNode) : PState :=
  ⟨(goWalk root tree).tasks, [], [], [], false⟩

/-- Success outcomes among those emitted. -/
def successes (s : PState) : List Outcome :=
  s.emitted.filter fun o =>
    match o with
    | Outcome.ok _ _ => true
    | _ => false

/-- Concrete fixture: a root directory holding two regular files. -/
def treeAB : FsNode := FsNode.dir true [("a.txt", FsNode.file), ("b.txt", FsNode.file)]

/-- Concrete read oracle for `treeAB`: `a.txt` holds bytes "he", `b.txt`
holds bytes "wo", anything else fails to open. -/
def Rab : String → Except String (List Nat) := fun p =>
  if p = "/r/a.txt" then Except.ok [104, 101]
  else if p = "/r/b.txt" then Except.ok [119, 111]
  else Except.error "open: no such file"

example : (mainRun "md5" "/r" Rab treeAB).workerResults =
    [Outcome.ok "/r/a.txt" "6865", Outcome.ok "/r/b.txt" "776f"] := by decide

example : (runSched "md5" Rab (initState "/r" treeAB)
    [Act.visit, Act.visit, Act.start "/r/a.txt", Act.start "/r/b.txt"]).running.length = 2 := by
  decide

/-- A worker's outcome is always tagged with the file it was spawned for. -/
theorem checksumWorker_path_eq (sign : String) (R : String → Except String (List Nat))
    (f : String) : (checksumWorker sign R f).path = f := by
  cases h : resolveAlg sign with
  | none => simp [checksumWorker, h, Outcome.path]
  | some alg =>
    cases h2 : fileDigest alg R f with
    | error e => simp [checksumWorker, h, h2, Outcome.path]
    | ok cs => simp [checksumWorker, h, h2, Outcome.path]

/-- A worker's outcome depends on the read oracle only at its own file. -/
theorem checksumWorker_congr (sign : String) (R1 R2 : String → Except String (List Nat))
    (g : String) (h : R1 g = R2 g) : checksumWorker sign R1 g = checksumWorker sign R2 g := by
  unfold checksumWorker fileDigest
  cases resolveAlg sign with
  | none => rfl
  | some alg => rw [h]

/-- Two program states agree outside file `f`: identical walk progress,
goroutine sets and exit flag, and identical emitted outcomes once the
outcomes for `f` itself are filtered away. -/
def agreeExcept (f : String) (s1 s2 : PState) : Prop :=
  s1.toSpawn = s2.toSpawn ∧ s1.spawned = s2.spawned ∧ s1.running = s2.running ∧
  s1.exited = s2.exited ∧
  s1.emitted.filter (fun o => o.path != f) = s2.emitted.filter (fun o => o.path != f)

/-- One scheduler step preserves agreement outside `f` between two runs
whose read oracles agree on every file other than `f`. -/
theorem step_agreeExcept (sign : String) (R1 R2 : String → Except String (List Nat))
    (f : String) (hag : ∀ g, g ≠ f → R1 g = R2 g) (s1 s2 : PState)
    (h : agreeExcept f s1 s2) (a : Act) :
    agreeExcept f (step sign R1 s1 a) (step sign R2 s2 a) := by
  obtain ⟨t1, sp1, r1, e1, x1⟩ := s1
  obtain ⟨t2, sp2, r2, e2, x2⟩ := s2
  obtain ⟨ht, hsp, hr, hx, he⟩ := h
  simp only at ht hsp hr hx he
  subst ht hsp hr hx
  cases a with
  | visit =>
    cases x1 with
    | true => exact ⟨rfl, rfl, rfl, rfl, he⟩
    | false =>
      cases t1 with
      | nil => exact ⟨rfl, rfl, rfl, rfl, he⟩
      | cons hd tl => exact ⟨rfl, rfl, rfl, rfl, he⟩
  | start g =>
    cases x1 with
    | true => exact ⟨rfl, rfl, rfl, rfl, he⟩
    | false =>
      by_cases hm : g ∈ sp1
      · simp only [step, hm, if_true, Bool.false_eq_true, if_false]
        exact ⟨rfl, rfl, rfl, rfl, he⟩
      · simp only [step, hm, if_false, Bool.false_eq_true]
        exact ⟨rfl, rfl, rfl, rfl, he⟩
  | finish g =>
    cases x1 with
    | true => exact ⟨rfl, rfl, rfl, rfl, he⟩
    | false =>
      by_cases hm : g ∈ r1
      · simp only [step, hm, if_true, Bool.false_eq_true, if_false]
        refine ⟨rfl, rfl, rfl, rfl, ?_⟩
        simp only [List.filter_append]
        by_cases hgf : g = f
        · subst hgf
          have p1 : (checksumWorker sign R1 g).path = g := checksumWorker_path_eq sign R1 g
          have p2 : (checksumWorker sign R2 g).path = g := checksumWorker_path_eq sign R2 g
          simp only [List.filter, p1, p2, bne_self_eq_false, List.filter_nil, he]
        · have hcw : checksumWorker sign R1 g = checksumWorker sign R2 g :=
            checksumWorker_congr sign R1 R2 g (hag g hgf)
          rw [he, hcw]
      · simp only [step, hm, if_false, Bool.false_eq_true]
        exact ⟨rfl, rfl, rfl, rfl, he⟩
  | exitMain =>
    by_cases ht : t1 = ([] : List String)
    · simp only [step, ht, if_true]
      exact ⟨rfl, rfl, rfl, rfl, he⟩
    · simp only [step, ht, if_false]
      exact ⟨rfl, rfl, rfl, rfl, he⟩

/-- A whole schedule preserves agreement outside `f`. -/
theorem runSched_agreeExcept (sign : String) (R1 R2 : String → Except String (List Nat))
    (f : String) (hag : ∀ g, g ≠ f → R1 g = R2 g) :
    ∀ (sched : List Act) (s1 s2 : PState), agreeExcept f s1 s2 →
      agreeExcept f (runSched sign R1 s1 sched) (runSched sign R2 s2 sched) := by
  intro sched
  induction sched with
  | nil => intro s1 s2 h; exact h
  | cons a rest ih =>
    intro s1 s2 h
    exact ih (step sign R1 s1 a) (step sign R2 s2 a)
      (step_agreeExcept sign R1 R2 f hag s1 s2 h a)

/-- Every value below 16 renders as a lowercase hexadecimal digit. -/
theorem hexDigitChar_mem : ∀ n, n < 16 → hexDigitChar n ∈ "0123456789abcdef".data := by
  decide

/-- Every character of a modelled digest is a lowercase hexadecimal digit. -/
theorem specDigestChars_hex (content : List Nat) :
    ∀ ch ∈ specDigestChars content, ch ∈ "0123456789abcdef".data := by
  induction content with
  | nil => intro ch h; simp [specDigestChars] at h
  | cons b rest ih =>
    intro ch h
    simp only [specDigestChars, List.mem_cons] at h
    rcases h with h | h | h
    · exact h ▸ hexDigitChar_mem (b / 16 % 16) (Nat.mod_lt _ (by decide))
    · exact h ▸ hexDigitChar_mem (b % 16) (Nat.mod_lt _ (by decide))
    · exact ih ch h

/-- Complete schedule: both files spawned, started, finished, then exit. -/
def schedAll : List Act :=
  [Act.visit, Act.visit, Act.start "/r/a.txt", Act.start "/r/b.txt",
   Act.finish "/r/a.txt", Act.finish "/r/b.txt", Act.exitMain]

/-- Dropping schedule: `main` returns right after the walk, before either
spawned goroutine ever runs. -/
def schedDrop : List Act := [Act.visit, Act.visit, Act.exitMain]

/-- Read oracle under which only `/r/locked.txt` fails to read. -/
def Rlock : String → Except String (List Nat) := fun p =>
  if p = "/r/locked.txt" then Except.error "permission denied" else Except.ok [104]

/-- Read oracle for the C5 witness: `/r/a.txt` fails, `/r/b.txt` reads. -/
def RW1 : String → Except String (List Nat) := fun p =>
  if p = "/r/a.txt" then Except.error "permission denied" else Except.ok [119, 111]

/-- Read oracle agreeing with `RW1` except at `/r/a.txt`, which reads. -/
def RW2 : String → Except String (List Nat) := fun p =>
  if p = "/r/a.txt" then Except.ok [104, 101] else Except.ok [119, 111]

/-- Constant read oracle for the C8 witness. -/
def Rconst : String → Except String (List Nat) := fun _ => Except.ok [1, 2]

/-- C1: the claim asks for exactly one fatal ConfigurationError at
configuration time, zero outcomes and no traversal when the algorithm
identifier is unsupported.  The code instead performs the full traversal
(3 callback invocations over a root with two files, 2 tasks spawned),
evaluates the identifier switch once per spawned worker — producing one
`Algorithm not supported.` error per file, printed nowhere and dropped —
and exits with status 0 and no fatal error. -/
theorem c1_per_file_algorithm_check :
    (mainRun "sha1" "/r" Rab treeAB).walkOut.calls.length = 3 ∧
    (mainRun "sha1" "/r" Rab treeAB).walkOut.tasks = ["/r/a.txt", "/r/b.txt"] ∧
    (mainRun "sha1" "/r" Rab treeAB).workerResults =
      [Outcome.badAlg "/r/a.txt", Outcome.badAlg "/r/b.txt"] ∧
    (mainRun "sha1" "/r" Rab treeAB).exitCode = 0 := by decide

/-- C2: over a root with two files, the schedule that visits both entries
and then lets both spawned goroutines begin yields a reachable state with
two digest computations executing concurrently.  The program configures no
concurrency limit at all, so for the smallest admissible limit N = 1 the
claimed bound is already exceeded. -/
theorem c2_unbounded_concurrency :
    (runSched "md5" Rab (initState "/r" treeAB)
      [Act.visit, Act.visit, Act.start "/r/a.txt", Act.start "/r/b.txt"]).running =
      ["/r/a.txt", "/r/b.txt"] ∧
    (runSched "md5" Rab (initState "/r" treeAB)
      [Act.visit, Act.visit, Act.start "/r/a.txt", Act.start "/r/b.txt"]).running.length = 2 := by
  decide

/-- C3: under the schedule where `main` returns as soon as the walk is
over, the run terminates (process exits) with both admitted tasks still
pending and zero outcomes emitted: nothing joins the spawned goroutines,
so their outcomes are silently dropped. -/
theorem c3_outcomes_dropped_at_exit :
    (runSched "md5" Rab (initState "/r" treeAB) schedDrop).exited = true ∧
    (runSched "md5" Rab (initState "/r" treeAB) schedDrop).spawned =
      ["/r/a.txt", "/r/b.txt"] ∧
    (runSched "md5" Rab (initState "/r" treeAB) schedDrop).emitted = [] := by decide

/-- C4 counterexample: a symbolic link and a device node are non-directory
entries, so `walkWith` spawns a hashing task for them instead of skipping
them; a walk over a root containing only a symlink emits it as a task.
This refutes the claim that by default only regular files are hashed. -/
theorem c4_symlink_spawned_counterexample :
    walkWith "/r/ln" (some ⟨FKind.symlink⟩) none = WalkStep.spawn "/r/ln" ∧
    walkWith "/r/dev0" (some ⟨FKind.device⟩) none = WalkStep.spawn "/r/dev0" ∧
    (goWalk "/r" (FsNode.dir true [("ln", FsNode.link)])).tasks = ["/r/ln"] := by decide

/-- C4 amended: directories themselves are never emitted as hashing tasks,
but that is the only filtering the callback performs — every non-directory
entry with a non-nil file info, including symbolic links and special
files, is emitted as a hashing task. -/
theorem c4_only_directories_skipped (path : String) (i : FInfo) (e : Option String) :
    (i.isDir = true → walkWith path (some i) e = WalkStep.skip) ∧
    (i.isDir = false → walkWith path (some i) e = WalkStep.spawn path) ∧
    (callOut path (some i) e).tasks = (if i.isDir then [] else [path]) := by
  refine ⟨fun h => by simp [walkWith, h], fun h => by simp [walkWith, h], ?_⟩
  cases h : i.isDir with
  | true => simp [callOut, walkWith, h]
  | false => simp [callOut, walkWith, h]

/-- C4 amended witness: a directory entry is skipped while a socket entry
is spawned as a hashing task. -/
theorem c4_only_directories_skipped_witness :
    walkWith "/r/sub" (some ⟨FKind.directory⟩) none = WalkStep.skip ∧
    walkWith "/r/s.sock" (some ⟨FKind.socket⟩) none = WalkStep.spawn "/r/s.sock" :=
  ⟨(c4_only_directories_skipped "/r/sub" ⟨FKind.directory⟩ none).1 rfl,
   (c4_only_directories_skipped "/r/s.sock" ⟨FKind.socket⟩ none).2.1 rfl⟩

/-- C5: a read failure on one file yields a failure outcome for that file
only.  For any two read oracles that differ only at `f` (failing in the
first), every schedule leaves the two runs in states that agree outside
`f`: identical walk progress, identical spawned and running goroutine
sets, identical exit flag, and identical emitted outcomes once `f`'s own
outcome is filtered away — the failure neither aborts nor blocks any
other file. -/
theorem c5_failure_isolation (sign alg : String)
    (R1 R2 : String → Except String (List Nat)) (f e root : String) (tree : FsNode)
    (sched : List Act)
    (halg : resolveAlg sign = some alg)
    (hf : R1 f = Except.error e)
    (hag : ∀ g, g ≠ f → R1 g = R2 g) :
    checksumWorker sign R1 f = Outcome.readFail f e ∧
    agreeExcept f (runSched sign R1 (initState root tree) sched)
      (runSched sign R2 (initState root tree) sched) := by
  constructor
  · simp [checksumWorker, fileDigest, halg, hf]
  · exact runSched_agreeExcept sign R1 R2 f hag sched
      (initState root tree) (initState root tree) ⟨rfl, rfl, rfl, rfl, rfl⟩

/-- C5 witness: concrete instantiation with `/r/a.txt` failing under `RW1`
and readable under `RW2`, over the two-file tree and the complete
schedule. -/
theorem c5_failure_isolation_witness :
    checksumWorker "md5" RW1 "/r/a.txt" = Outcome.readFail "/r/a.txt" "permission denied" ∧
    agreeExcept "/r/a.txt" (runSched "md5" RW1 (initState "/r" treeAB) schedAll)
      (runSched "md5" RW2 (initState "/r" treeAB) schedAll) :=
  c5_failure_isolation "md5" "md5" RW1 RW2 "/r/a.txt" "permission denied" "/r" treeAB
    schedAll rfl rfl
    (fun g hg => by simp [RW1, RW2, hg])

/-- C6 counterexample: with a perfectly valid root but an unrecognized
algorithm identifier the process exits with status 0 — the per-file
`Algorithm not supported.` errors are returned inside goroutines and
dropped, and `main` returns normally.  This refutes the claim that the
exit status is non-zero whenever the algorithm identifier is
unrecognized. -/
theorem c6_bad_algorithm_exit_zero :
    (mainRun "sha1" "/r" Rab treeAB).exitCode = 0 := by decide

/-- C6 amended: the exit status is non-zero (2, via the nil-info panic in
`walkWith`) when `lstat` of the root fails, i.e. the root path is invalid;
but whenever the walk completes without a panic the process exits with
status 0 regardless of the algorithm identifier — an unrecognized
identifier never makes the exit status non-zero. -/
theorem c6_exit_status (sign root e : String)
    (R : String → Except String (List Nat)) (tree : FsNode) :
    (lstatOf tree = Except.error e → (mainRun sign root R tree).exitCode = 2) ∧
    ((goWalk root tree).panicked = false → (mainRun sign root R tree).exitCode = 0) := by
  constructor
  · intro h
    cases tree with
    | file => simp [lstatOf] at h
    | dir b children => simp [lstatOf] at h
    | link => simp [lstatOf] at h
    | special k => simp [lstatOf] at h
    | statErr m => rfl
  · intro h
    simp [mainRun, h]

/-- C6 amended witness: a missing root exits with status 2; a valid root
with an unknown algorithm exits with status 0. -/
theorem c6_exit_status_witness :
    (mainRun "md5" "/missing" Rab (FsNode.statErr "no such file")).exitCode = 2 ∧
    (mainRun "sha1" "/r" Rab treeAB).exitCode = 0 :=
  ⟨(c6_exit_status "md5" "/missing" "no such file" Rab (FsNode.statErr "no such file")).1 rfl,
   (c6_exit_status "sha1" "/r" "unused" Rab treeAB).2 (by decide)⟩

/-- C7 counterexample: the failure printout for an unreadable file is
`Error: permission denied` — it does not carry the file's path (and has no
trailing newline), refuting the claim that every failed file produces a
line associating the path with the error message. -/
theorem c7_error_line_omits_path :
    workerPrints (checksumWorker "md5" Rlock "/r/locked.txt") = ["Error: permission denied"] ∧
    "Error: permission denied" ≠ "/r/locked.txt: permission denied" := by decide

/-- C7 amended: every successfully hashed file prints exactly the line
`<path> :: <digest>` (newline-terminated); every read failure prints
`Error: <message>` with no path and no newline. -/
theorem c7_rendering (sign alg : String) (R : String → Except String (List Nat))
    (p : String) (c : List Nat) (m : String)
    (halg : resolveAlg sign = some alg) :
    (R p = Except.ok c →
      workerPrints (checksumWorker sign R p) = [p ++ " :: " ++ specDigest alg c ++ "\n"]) ∧
    (R p = Except.error m →
      workerPrints (checksumWorker sign R p) = ["Error: " ++ m]) := by
  constructor
  · intro h
    simp [checksumWorker, fileDigest, halg, h, workerPrints]
  · intro h
    simp [checksumWorker, fileDigest, halg, h, workerPrints]

/-- C7 amended witness: the success line for `/r/a.txt` and the pathless
error line for `/r/locked.txt`. -/
theorem c7_rendering_witness :
    workerPrints (checksumWorker "md5" Rab "/r/a.txt") =
      ["/r/a.txt" ++ " :: " ++ specDigest "md5" [104, 101] ++ "\n"] ∧
    workerPrints (checksumWorker "md5" Rlock "/r/locked.txt") =
      ["Error: " ++ "permission denied"] :=
  ⟨(c7_rendering "md5" "md5" Rab "/r/a.txt" [104, 101] "unused" rfl).1 rfl,
   (c7_rendering "md5" "md5" Rlock "/r/locked.txt" [] "permission denied" rfl).2 rfl⟩

/-- C8: under a fixed algorithm the digest is a deterministic function of
the file's byte content — two files whose reads yield the same bytes get
identical digest strings — and every character of a digest is a lowercase
hexadecimal digit. -/
theorem c8_digest_deterministic_lowercase_hex (alg : String)
    (R : String → Except String (List Nat)) (f g : String) (content : List Nat)
    (hc : R f = R g) :
    fileDigest alg R f = fileDigest alg R g ∧
    ∀ ch ∈ (specDigest alg content).data, ch ∈ "0123456789abcdef".data := by
  constructor
  · unfold fileDigest
    rw [hc]
  · intro ch h
    exact specDigestChars_hex content ch h

/-- C8 witness: two paths reading identical bytes under a constant oracle
digest identically, and the concrete digest of those bytes is made of
lowercase hex digits. -/
theorem c8_digest_deterministic_lowercase_hex_witness :
    fileDigest "sha256" Rconst "/r/x" = fileDigest "sha256" Rconst "/r/y" ∧
    ∀ ch ∈ (specDigest "sha256" [1, 2]).data, ch ∈ "0123456789abcdef".data :=
  c8_digest_deterministic_lowercase_hex "sha256" Rconst "/r/x" "/r/y" [1, 2] rfl

/-- C9: two runs of the engine over the same unchanged tree with the same
algorithm can yield different success-outcome sets: a schedule that lets
every worker finish emits both success outcomes, while a schedule in which
`main` returns right after the walk emits none — the emitted set depends
on goroutine scheduling, refuting run-to-run determinism. -/
theorem c9_schedule_dependent_success_set :
    (runSched "md5" Rab (initState "/r" treeAB) schedAll).exited = true ∧
    (runSched "md5" Rab (initState "/r" treeAB) schedDrop).exited = true ∧
    successes (runSched "md5" Rab (initState "/r" treeAB) schedAll) =
      [Outcome.ok "/r/a.txt" "6865", Outcome.ok "/r/b.txt" "776f"] ∧
    successes (runSched "md5" Rab (initState "/r" treeAB) schedDrop) = [] ∧
    successes (runSched "md5" Rab (initState "/r" treeAB) schedAll) ≠
      successes (runSched "md5" Rab (initState "/r" treeAB) schedDrop) := by decide

/-- C10: `walkWith` ignores its error argument entirely — its result is
the same for any two error arguments — and unconditionally calls
`info.IsDir()`, so every invocation with a nil file info dereferences nil
(crashes) and surfaces no outcome and no task for the traversal error. -/
theorem c10_nil_info_dereference (path e : String) :
    walkWith path none (some e) = WalkStep.crash ∧
    (callOut path none (some e)).panicked = true ∧
    (callOut path none (some e)).tasks = [] ∧
    (∀ (i : Option FInfo) (e1 e2 : Option String), walkWith path i e1 = walkWith path i e2) := by
  refine ⟨rfl, rfl, rfl, ?_⟩
  intro i e1 e2
  cases i with
  | none => rfl
  | some j => rfl
